import Mathlib

/-!
Verification development for the v2-refactored visualization host.

This file gives a shallow embedding of the subsystems that the checked
claims are about, translated from the JavaScript sources:

* `src/core/ReactivityManager.js` — the reactivity router with its pointer,
  click and wheel modes (embedded over `ℝ`; the JavaScript numbers are
  modelled as exact reals, `Math.round` as round-half-up, `toFixed(2)` as
  rounding to two decimals, and the JavaScript `%` operator as the
  truncated remainder `jsRem`).
* `src/core/SmartCanvasPool.js` — the GPU context pool and engine
  scheduler (embedded as explicit state passing over a `PoolState`;
  canvas elements, layer containers and engine objects are modelled with
  the fields the pool reads and writes).
* `src/holograms/RealHolographicSystem.js` — the holographic engine's
  variant / parameter-override logic.

Modelling conventions are documented next to each definition.
-/

/-! ## JavaScript numeric primitives -/

/-- JavaScript `Math.round`: round half toward positive infinity,
returned as a real (JS numbers stay numbers). -/
noncomputable def jsRound (x : ℝ) : ℝ := ((round x : ℤ) : ℝ)

/-- JavaScript `Number.prototype.toFixed(2)`, read back as a number:
round to the nearest hundredth, halves toward positive infinity. -/
noncomputable def toFixed2 (x : ℝ) : ℝ := jsRound (100 * x) / 100

/-- Truncation toward zero, as used by the JavaScript `%` operator. -/
noncomputable def jsTrunc (x : ℝ) : ℝ := if 0 ≤ x then ((⌊x⌋ : ℤ) : ℝ) else ((⌈x⌉ : ℤ) : ℝ)

/-- The JavaScript remainder operator `a % b` (sign follows the dividend). -/
noncomputable def jsRem (a b : ℝ) : ℝ := a - b * jsTrunc (a / b)

/-! ## Reactivity router: parameter updates

The router's mode handlers emit parameter updates through
`updateParam(name, value)`, which forwards to the global parameter sink
(`window.updateParameter`).  We model one processed input event as the
ordered list of updates it emits; an empty list means the parameter store
is untouched. -/

/-- One emitted parameter update: parameter name and numeric value
(JS emits some values as `toFixed` strings; we model the numeric content). -/
abbrev ParamUpdate := String × ℝ

/-! ### Pointer modes (`RotationMode`, `VelocityMode`, `DistanceMode`) -/

/-- State of `RotationMode` (constructor defaults from the source). -/
structure RotationModeS where
  lastPosition : ℝ × ℝ := (0.5, 0.5)
  scrollHue : ℝ := 200

/-- `RotationMode.handleMouseMove(x, y, updateParam)`.  The source mutates
no fields; the state is returned unchanged. -/
noncomputable def rotation_handleMouseMove (m : RotationModeS) (x y : ℝ) :
    RotationModeS × List ParamUpdate :=
  let rotationRange : ℝ := 6.28 * 2
  let rot4dXW := (x - 0.5) * rotationRange
  let rot4dYW := (x - 0.5) * rotationRange * 0.7
  let rot4dZW := (y - 0.5) * rotationRange
  let hueOffset := (x - 0.5) * 30
  let mouseHue := jsRem (m.scrollHue + hueOffset) 360
  (m, [("rot4dXW", toFixed2 rot4dXW), ("rot4dYW", toFixed2 rot4dYW),
       ("rot4dZW", toFixed2 rot4dZW), ("hue", jsRound mouseHue)])

/-- State of `VelocityMode`. -/
structure VelocityModeS where
  lastPosition : ℝ × ℝ := (0.5, 0.5)
  velocityHistory : List ℝ := []

/-- `VelocityMode.handleMouseMove`: rolling mean of pointer speed over the
last 5 samples (push, then shift when the history exceeds 5). -/
noncomputable def velocity_handleMouseMove (m : VelocityModeS) (x y : ℝ) :
    VelocityModeS × List ParamUpdate :=
  let deltaX := x - m.lastPosition.1
  let deltaY := y - m.lastPosition.2
  let velocity := Real.sqrt (deltaX * deltaX + deltaY * deltaY)
  let hist0 := m.velocityHistory ++ [velocity]
  let hist := if 5 < hist0.length then hist0.tail else hist0
  let avgVelocity := hist.sum / (hist.length : ℝ)
  let chaos := min 1.0 (avgVelocity * 30)
  let speed := 0.5 + min 2.5 (avgVelocity * 15)
  let gridDensity := 10 + y * 90
  let intensity := 0.4 + x * 0.6
  let hue := jsRem (280 + avgVelocity * 80) 360
  ({ lastPosition := (x, y), velocityHistory := hist },
   [("chaos", toFixed2 chaos), ("speed", toFixed2 speed),
    ("gridDensity", jsRound gridDensity), ("intensity", toFixed2 intensity),
    ("hue", jsRound hue)])

/-- `DistanceMode.handleMouseMove`.  `DistanceMode` has no constructor and
no fields in the source: the handler is a pure function of the pointer
position. -/
noncomputable def distance_handleMouseMove (x y : ℝ) : List ParamUpdate :=
  let centerX : ℝ := 0.5
  let centerY : ℝ := 0.5
  let distanceFromCenter := Real.sqrt ((x - centerX) * (x - centerX) + (y - centerY) * (y - centerY))
  let normalizedDistance := min (distanceFromCenter / 0.707) 1.0
  let gridDensity := 5 + 95 * normalizedDistance
  let intensity := 0.2 + 0.8 * (1.0 - normalizedDistance)
  let saturation := 0.4 + 0.6 * (1.0 - normalizedDistance)
  let hue := jsRem (320 + normalizedDistance * 40) 360
  [("gridDensity", jsRound gridDensity), ("intensity", toFixed2 intensity),
   ("saturation", toFixed2 saturation), ("hue", jsRound hue)]

/-! ### Click modes (`BurstMode`, `BlastMode`, `RippleMode`)

Each click mode sets decaying effect magnitudes and, if not already
animating, starts a frame loop whose body runs once synchronously and is
then re-scheduled via `requestAnimationFrame` while any magnitude exceeds
0.01.  We embed the loop body as one `...Animate` step (state in, state
plus emitted updates out); the handler runs the first step synchronously,
exactly as the source does.  The source initializes `effects` to an empty
object, whose absent fields compare as not-greater-than 0.01; we model
them as fields defaulting to 0. -/

/-- State of `BurstMode`. -/
structure BurstModeS where
  isAnimating : Bool := false
  colorFlash : ℝ := 0
  chaosBoost : ℝ := 0
  speedBoost : ℝ := 0

/-- One iteration of `BurstMode.startAnimation`'s `animate` body. -/
noncomputable def burstAnimate (m : BurstModeS) : BurstModeS × List ParamUpdate :=
  let hasEffects := 0.01 < m.colorFlash ∨ 0.01 < m.chaosBoost ∨ 0.01 < m.speedBoost
  let cf := if 0.01 < m.colorFlash then m.colorFlash * 0.94 else m.colorFlash
  let u1 : List ParamUpdate :=
    if 0.01 < m.chaosBoost then [("chaos", toFixed2 (0.2 + m.chaosBoost))] else []
  let cb := if 0.01 < m.chaosBoost then m.chaosBoost * 0.92 else m.chaosBoost
  let u2 : List ParamUpdate :=
    if 0.01 < m.speedBoost then [("speed", toFixed2 (1.0 + m.speedBoost))] else []
  let sb := if 0.01 < m.speedBoost then m.speedBoost * 0.91 else m.speedBoost
  ({ isAnimating := if hasEffects then m.isAnimating else false,
     colorFlash := cf, chaosBoost := cb, speedBoost := sb }, u1 ++ u2)

/-- `BurstMode.handleClick` (click coordinates are unused by the source). -/
noncomputable def burst_handleClick (m : BurstModeS) (_x _y : ℝ) :
    BurstModeS × List ParamUpdate :=
  let m1 := { m with colorFlash := 1.0, chaosBoost := 0.8, speedBoost := 1.5 }
  if m.isAnimating then (m1, []) else burstAnimate { m1 with isAnimating := true }

/-- State of `BlastMode`. -/
structure BlastModeS where
  isAnimating : Bool := false
  flashIntensity : ℝ := 0
  chaosBlast : ℝ := 0
  speedWave : ℝ := 0
  hueShift : ℝ := 0

/-- One iteration of `BlastMode.startAnimation`'s `animate` body.  The
iteration order is the object's insertion order (`flashIntensity`,
`chaosBlast`, `speedWave`, `hueShift`); `flashIntensity` has no `switch`
case in the source, so it is tested for `hasEffects` but never decayed. -/
noncomputable def blastAnimate (m : BlastModeS) : BlastModeS × List ParamUpdate :=
  let hasEffects := 0.01 < m.flashIntensity ∨ 0.01 < m.chaosBlast ∨
    0.01 < m.speedWave ∨ 0.01 < m.hueShift
  let u1 : List ParamUpdate :=
    if 0.01 < m.chaosBlast then [("chaos", toFixed2 (min 1.0 (0.3 + m.chaosBlast)))] else []
  let cb := if 0.01 < m.chaosBlast then m.chaosBlast * 0.88 else m.chaosBlast
  let u2 : List ParamUpdate :=
    if 0.01 < m.speedWave then [("speed", toFixed2 (min 3.0 (1.0 + m.speedWave)))] else []
  let sw := if 0.01 < m.speedWave then m.speedWave * 0.89 else m.speedWave
  let u3 : List ParamUpdate :=
    if 0.01 < m.hueShift then [("hue", jsRound (jsRem (280 + m.hueShift) 360))] else []
  let hs := if 0.01 < m.hueShift then m.hueShift * 0.90 else m.hueShift
  ({ isAnimating := if hasEffects then m.isAnimating else false,
     flashIntensity := m.flashIntensity, chaosBlast := cb, speedWave := sw,
     hueShift := hs }, u1 ++ u2 ++ u3)

/-- `BlastMode.handleClick` (click coordinates are unused by the source). -/
noncomputable def blast_handleClick (m : BlastModeS) (_x _y : ℝ) :
    BlastModeS × List ParamUpdate :=
  let m1 := { m with flashIntensity := 1.0, chaosBlast := 0.7, speedWave := 2.0,
                     hueShift := 60 }
  if m.isAnimating then (m1, []) else blastAnimate { m1 with isAnimating := true }

/-- State of `RippleMode`. -/
structure RippleModeS where
  morphIntensity : ℝ := 0
  baseMorph : ℝ := 1.0
  isAnimating : Bool := false

/-- One iteration of `RippleMode.startAnimation`'s `animate` body. -/
noncomputable def rippleAnimate (m : RippleModeS) : RippleModeS × List ParamUpdate :=
  if 0.01 < m.morphIntensity then
    ({ m with morphIntensity := m.morphIntensity * 0.9 },
     [("morphFactor", toFixed2 (m.baseMorph + m.morphIntensity))])
  else
    ({ m with isAnimating := false }, [("morphFactor", toFixed2 m.baseMorph)])

/-- `RippleMode.handleClick`: morph boost scaled by click distance to center. -/
noncomputable def ripple_handleClick (m : RippleModeS) (x y : ℝ) :
    RippleModeS × List ParamUpdate :=
  let distance := Real.sqrt ((x - 0.5) * (x - 0.5) + (y - 0.5) * (y - 0.5))
  let normalizedDistance := min (distance / 0.707) 1.0
  let m1 := { m with morphIntensity := 0.1 + 0.2 * (1.0 - normalizedDistance) }
  if m.isAnimating then (m1, []) else rippleAnimate { m1 with isAnimating := true }

/-! ### Wheel modes (`CycleMode`, `WaveMode`, `SweepMode`) -/

/-- State of `CycleMode` (constructor defaults from the source). -/
structure CycleModeS where
  scrollDensity : ℝ := 15
  scrollHue : ℝ := 200

/-- `CycleMode.handleWheel(deltaY, updateParam)`.  Note the direction:
`deltaY > 0 ? 1 : -1`, so a zero delta takes the `-1` branch. -/
noncomputable def cycle_handleWheel (m : CycleModeS) (deltaY : ℝ) :
    CycleModeS × List ParamUpdate :=
  let direction : ℝ := if 0 < deltaY then 1 else -1
  let d1 := m.scrollDensity + direction * 0.8
  let d2 := max 5 (min 100 d1)
  let h1 := m.scrollHue + direction * 3
  let h2 := jsRem (jsRem h1 360 + 360) 360
  ({ scrollDensity := d2, scrollHue := h2 },
   [("gridDensity", jsRound d2), ("hue", jsRound h2)])

/-- State of `WaveMode`. -/
structure WaveModeS where
  scrollMorph : ℝ := 1.0

/-- `WaveMode.handleWheel`. -/
noncomputable def wave_handleWheel (m : WaveModeS) (deltaY : ℝ) :
    WaveModeS × List ParamUpdate :=
  let direction : ℝ := if 0 < deltaY then 1 else -1
  let m1 := max 0.2 (min 2.0 (m.scrollMorph + direction * 0.02))
  ({ scrollMorph := m1 }, [("morphFactor", toFixed2 m1)])

/-- State of `SweepMode`: rotating focus index plus the five base values
`[200, 0.5, 0.8, 0.2, 1.0]` for hue, intensity, saturation, chaos, speed. -/
structure SweepModeS where
  sweepParameter : Fin 5 := 0
  v0 : ℝ := 200
  v1 : ℝ := 0.5
  v2 : ℝ := 0.8
  v3 : ℝ := 0.2
  v4 : ℝ := 1.0

/-- Read the sweep value at an index. -/
def sweepGet (m : SweepModeS) : Fin 5 → ℝ
  | ⟨0, _⟩ => m.v0
  | ⟨1, _⟩ => m.v1
  | ⟨2, _⟩ => m.v2
  | ⟨3, _⟩ => m.v3
  | ⟨4, _⟩ => m.v4

/-- Write the sweep value at an index. -/
def sweepSet (m : SweepModeS) (i : Fin 5) (v : ℝ) : SweepModeS :=
  match i with
  | ⟨0, _⟩ => { m with v0 := v }
  | ⟨1, _⟩ => { m with v1 := v }
  | ⟨2, _⟩ => { m with v2 := v }
  | ⟨3, _⟩ => { m with v3 := v }
  | ⟨4, _⟩ => { m with v4 := v }

/-- The `params` array of `SweepMode.handleWheel`. -/
def sweepParamName : Fin 5 → String
  | ⟨0, _⟩ => "hue"
  | ⟨1, _⟩ => "intensity"
  | ⟨2, _⟩ => "saturation"
  | ⟨3, _⟩ => "chaos"
  | ⟨4, _⟩ => "speed"

/-- The `ranges` array of `SweepMode.handleWheel`. -/
noncomputable def sweepRange : Fin 5 → ℝ × ℝ
  | ⟨0, _⟩ => (0, 360)
  | ⟨1, _⟩ => (0.1, 1.0)
  | ⟨2, _⟩ => (0.1, 1.0)
  | ⟨3, _⟩ => (0, 1.0)
  | ⟨4, _⟩ => (0.1, 3.0)

/-- `SweepMode.handleWheel`.  The call to `Math.random()` is modelled by
the extra argument `rand`; the focus advances when `rand < 0.1`.  The
index advance `(p + 1) % 5` is `Fin 5` addition. -/
noncomputable def sweep_handleWheel (m : SweepModeS) (deltaY rand : ℝ) :
    SweepModeS × List ParamUpdate :=
  let direction : ℝ := if 0 < deltaY then 1 else -1
  let i := m.sweepParameter
  let mn := (sweepRange i).1
  let mx := (sweepRange i).2
  let step := (mx - mn) * 0.02
  let v2 := max mn (min mx (sweepGet m i + direction * step))
  let m1 := sweepSet m i v2
  let m2 := if rand < 0.1 then { m1 with sweepParameter := i + 1 } else m1
  (m2, [(sweepParamName i, toFixed2 v2)])

/-! ### The router (`ReactivityManager`)

The manager holds the master toggle, the three per-channel toggles, one
state object per mode, and the three current mode names.  DOM events are
modelled by the data the handlers read: whether the event target is a
`canvas.visualization-canvas` element (`isCanvasEvent`), the normalized
coordinates produced by `getEventCoords`, wheel `deltaY`, and whether a
touch list is non-empty.  The `Math.random()` drawn inside `SweepMode` is
threaded through as an extra argument to the wheel path. -/

/-- A mouse or click event as seen by the router. -/
structure MouseEventE where
  isCanvasEvent : Bool
  x : ℝ
  y : ℝ

/-- A touch event as seen by the router (`hasTouch`: the relevant touch
list is non-empty). -/
structure TouchEventE where
  isCanvasEvent : Bool
  hasTouch : Bool
  x : ℝ
  y : ℝ

/-- A wheel event as seen by the router. -/
structure WheelEventE where
  isCanvasEvent : Bool
  deltaY : ℝ

/-- The `ReactivityManager` state (constructor defaults from the source). -/
structure ReactivityManager where
  enabled : Bool := true
  mouseEnabled : Bool := true
  clickEnabled : Bool := true
  scrollEnabled : Bool := true
  activeSystemName : String := "faceted"
  rotations : RotationModeS := {}
  velocity : VelocityModeS := {}
  burst : BurstModeS := {}
  blast : BlastModeS := {}
  ripple : RippleModeS := {}
  cycle : CycleModeS := {}
  wave : WaveModeS := {}
  sweep : SweepModeS := {}
  currentMouseMode : String := "rotations"
  currentClickMode : String := "burst"
  currentScrollMode : String := "cycle"

/-- Keys of `this.mouseModes`. -/
def mouseModeNames : List String := ["rotations", "velocity", "distance"]

/-- Keys of `this.clickModes`. -/
def clickModeNames : List String := ["burst", "blast", "ripple"]

/-- Keys of `this.scrollModes`. -/
def scrollModeNames : List String := ["cycle", "wave", "sweep"]

/-- `setMouseMode(mode)`: the assignment happens only when `mode` is a key
of `this.mouseModes`; otherwise the call leaves the manager unchanged. -/
def setMouseMode (r : ReactivityManager) (m : String) : ReactivityManager :=
  if m ∈ mouseModeNames then { r with currentMouseMode := m } else r

/-- `setClickMode(mode)`. -/
def setClickMode (r : ReactivityManager) (m : String) : ReactivityManager :=
  if m ∈ clickModeNames then { r with currentClickMode := m } else r

/-- `setScrollMode(mode)`. -/
def setScrollMode (r : ReactivityManager) (m : String) : ReactivityManager :=
  if m ∈ scrollModeNames then { r with currentScrollMode := m } else r

/-- `setEnabled(enabled)`. -/
def setEnabled (r : ReactivityManager) (b : Bool) : ReactivityManager :=
  { r with enabled := b }

/-- `toggleMouse(enabled)`. -/
def toggleMouse (r : ReactivityManager) (b : Bool) : ReactivityManager :=
  { r with mouseEnabled := b }

/-- `toggleClick(enabled)`. -/
def toggleClick (r : ReactivityManager) (b : Bool) : ReactivityManager :=
  { r with clickEnabled := b }

/-- `toggleScroll(enabled)`. -/
def toggleScroll (r : ReactivityManager) (b : Bool) : ReactivityManager :=
  { r with scrollEnabled := b }

/-- Dispatch of a mouse-move to `this.mouseModes[this.currentMouseMode]`:
a dictionary miss (`mode` falsy) produces no updates. -/
noncomputable def routeMouseMove (r : ReactivityManager) (x y : ℝ) :
    ReactivityManager × List ParamUpdate :=
  if r.currentMouseMode = "rotations" then
    let p := rotation_handleMouseMove r.rotations x y
    ({ r with rotations := p.1 }, p.2)
  else if r.currentMouseMode = "velocity" then
    let p := velocity_handleMouseMove r.velocity x y
    ({ r with velocity := p.1 }, p.2)
  else if r.currentMouseMode = "distance" then
    (r, distance_handleMouseMove x y)
  else (r, [])

/-- Dispatch of a click to `this.clickModes[this.currentClickMode]`. -/
noncomputable def routeClick (r : ReactivityManager) (x y : ℝ) :
    ReactivityManager × List ParamUpdate :=
  if r.currentClickMode = "burst" then
    let p := burst_handleClick r.burst x y
    ({ r with burst := p.1 }, p.2)
  else if r.currentClickMode = "blast" then
    let p := blast_handleClick r.blast x y
    ({ r with blast := p.1 }, p.2)
  else if r.currentClickMode = "ripple" then
    let p := ripple_handleClick r.ripple x y
    ({ r with ripple := p.1 }, p.2)
  else (r, [])

/-- Dispatch of a wheel event to `this.scrollModes[this.currentScrollMode]`. -/
noncomputable def routeWheel (r : ReactivityManager) (deltaY rand : ℝ) :
    ReactivityManager × List ParamUpdate :=
  if r.currentScrollMode = "cycle" then
    let p := cycle_handleWheel r.cycle deltaY
    ({ r with cycle := p.1 }, p.2)
  else if r.currentScrollMode = "wave" then
    let p := wave_handleWheel r.wave deltaY
    ({ r with wave := p.1 }, p.2)
  else if r.currentScrollMode = "sweep" then
    let p := sweep_handleWheel r.sweep deltaY rand
    ({ r with sweep := p.1 }, p.2)
  else (r, [])

/-- `handleGlobalMouseMove(e)`: dropped unless the master toggle, the
mouse toggle and the canvas-target test all pass. -/
noncomputable def handleGlobalMouseMove (r : ReactivityManager) (e : MouseEventE) :
    ReactivityManager × List ParamUpdate :=
  if !r.enabled || !r.mouseEnabled || !e.isCanvasEvent then (r, [])
  else routeMouseMove r e.x e.y

/-- `handleGlobalClick(e)`. -/
noncomputable def handleGlobalClick (r : ReactivityManager) (e : MouseEventE) :
    ReactivityManager × List ParamUpdate :=
  if !r.enabled || !r.clickEnabled || !e.isCanvasEvent then (r, [])
  else routeClick r e.x e.y

/-- `handleGlobalWheel(e)` (with the sweep mode's random draw threaded). -/
noncomputable def handleGlobalWheel (r : ReactivityManager) (e : WheelEventE)
    (rand : ℝ) : ReactivityManager × List ParamUpdate :=
  if !r.enabled || !r.scrollEnabled || !e.isCanvasEvent then (r, [])
  else routeWheel r e.deltaY rand

/-- `handleGlobalTouchMove(e)`: gated like mouse-move, then requires a
non-empty `touches` list. -/
noncomputable def handleGlobalTouchMove (r : ReactivityManager) (e : TouchEventE) :
    ReactivityManager × List ParamUpdate :=
  if !r.enabled || !r.mouseEnabled || !e.isCanvasEvent then (r, [])
  else if e.hasTouch then routeMouseMove r e.x e.y else (r, [])

/-- `handleGlobalTouchEnd(e)`: gated like click, then requires a non-empty
`changedTouches` list. -/
noncomputable def handleGlobalTouchEnd (r : ReactivityManager) (e : TouchEventE) :
    ReactivityManager × List ParamUpdate :=
  if !r.enabled || !r.clickEnabled || !e.isCanvasEvent then (r, [])
  else if e.hasTouch then routeClick r e.x e.y else (r, [])

/-! ## SmartCanvasPool (`src/core/SmartCanvasPool.js`)

State model.  The pool manages four systems, each with five canvases
(`canvasConfigs`), one layer container (`vib34dLayers`, `quantumLayers`,
`holographicLayers`, `polychoraLayers`) and one engine global
(`window.engine`, `window.quantumEngine`, `window.holographicSystem`,
`window.polychoraSystem`).  A canvas element carries the data the pool
reads: whether `getElementById` finds it, its bounding-box size, its
computed visibility, whether the platform can create a WebGL context on
it, and whether it currently has one (and whether that context is lost).

Modelling conventions:
* `canvas.getContext(...)` without a fresh-creation intent (in
  `countSystemContexts`, `getTotalWebGLContextCount`,
  `validateSystemContexts`, `destroySystemContexts`) is modelled as a
  read of the canvas's current context; creation is modelled at the
  creation call with explicit context options in `createSystemContexts`.
* `getBoundingClientRect` of a canvas inside a `display:none` container
  is 0×0, so the effective size used by the readiness test is zero while
  the layer container is not displayed.
* The pacing, stabilization and cleanup `setTimeout` waits do not change
  the modelled state and are dropped.
* `checkGPUMemory` only probes a temporary canvas that is not one of the
  engines' surfaces and is dropped.
* Canvas `width`/`height` attribute writes (resizing) are not read by any
  claim and are not modelled. -/

/-- The four system names of `canvasConfigs`. -/
inductive SystemName
  | faceted
  | quantum
  | holographic
  | polychora
deriving DecidableEq, Repr

/-- The `Object.keys(this.canvasConfigs)` order. -/
def systemNames : List SystemName :=
  [.faceted, .quantum, .holographic, .polychora]

/-- One canvas element, with the fields the pool reads and writes. -/
structure CanvasElem where
  present : Bool := true
  rectW : ℚ := 800
  rectH : ℚ := 600
  styleVisible : Bool := true
  webglOk : Bool := true
  hasContext : Bool := false
  contextLost : Bool := false
deriving DecidableEq, Repr

/-- A layer container's inline style, as set by `hideAllLayers` /
`showSystemLayers` (`display`, `visibility`, `opacity` fields). -/
structure LayerStyle where
  display : Bool
  visible : Bool
  opaq : Bool
deriving DecidableEq, Repr

/-- An engine object, reduced to the flag the pool toggles. -/
structure EngineObj where
  isActive : Bool
deriving DecidableEq, Repr

/-- Availability of the engine classes passed to the pool constructor
(`VIB34DIntegratedEngine`, `QuantumEngine`, `RealHolographicSystem`;
polychora has no class). -/
structure EngineClasses where
  vib34d : Bool := true
  quantum : Bool := true
  holographic : Bool := true
deriving DecidableEq, Repr

/-- Per-system state: the five canvases, the layer container, and the
engine global for that system. -/
structure SystemSlot where
  canvases : Fin 5 → CanvasElem
  layer : LayerStyle
  engine : Option EngineObj

/-- The pool state (`activeSystem` starts as `null`). -/
structure PoolState where
  activeSystem : Option SystemName
  faceted : SystemSlot
  quantum : SystemSlot
  holographic : SystemSlot
  polychora : SystemSlot
  classes : EngineClasses

/-- Read a system's slot. -/
def getSlot (st : PoolState) : SystemName → SystemSlot
  | .faceted => st.faceted
  | .quantum => st.quantum
  | .holographic => st.holographic
  | .polychora => st.polychora

/-- Replace a system's slot. -/
def setSlot (st : PoolState) (s : SystemName) (sl : SystemSlot) : PoolState :=
  match s with
  | .faceted => { st with faceted := sl }
  | .quantum => { st with quantum := sl }
  | .holographic => { st with holographic := sl }
  | .polychora => { st with polychora := sl }

/-- Update a system's slot in place. -/
def updSlot (st : PoolState) (s : SystemName) (f : SystemSlot → SystemSlot) :
    PoolState :=
  setSlot st s (f (getSlot st s))

/-- Whether a canvas counts as holding a live context: found in the DOM,
`getContext` returns a context, and `isContextLost()` is false. -/
def canvasLive (c : CanvasElem) : Bool :=
  c.present && c.hasContext && !c.contextLost

/-- `countSystemContexts(systemName)`. -/
def countSystemContexts (st : PoolState) (s : SystemName) : ℕ :=
  ((List.finRange 5).map fun i =>
    if canvasLive ((getSlot st s).canvases i) then 1 else 0).sum

/-- `getTotalWebGLContextCount()`: live contexts over every system's
configured canvases. -/
def getTotalWebGLContextCount (st : PoolState) : ℕ :=
  (systemNames.map fun s => countSystemContexts st s).sum

/-- `destroySystemContexts(systemName)`: every canvas found in the DOM is
replaced by a fresh clone, so it no longer holds a context.  Layer styles
and engine globals are untouched. -/
def destroySystemContexts (st : PoolState) (s : SystemName) : PoolState :=
  updSlot st s fun sl =>
    { sl with canvases := fun i =>
        let c := sl.canvases i
        if c.present then { c with hasContext := false, contextLost := false }
        else c }

/-- `hideAllLayers()`: sets `display:none; visibility:hidden; opacity:0`
on all four layer containers. -/
def hideAllLayers (st : PoolState) : PoolState :=
  let off : LayerStyle := ⟨false, false, false⟩
  { st with
    faceted := { st.faceted with layer := off },
    quantum := { st.quantum with layer := off },
    holographic := { st.holographic with layer := off },
    polychora := { st.polychora with layer := off } }

/-- `showSystemLayers(systemName)`: sets `display:block;
visibility:visible; opacity:1` on the target's container only. -/
def showSystemLayers (st : PoolState) (s : SystemName) : PoolState :=
  updSlot st s fun sl => { sl with layer := ⟨true, true, true⟩ }

/-- The readiness test of `createSystemContexts`' per-canvas loop:
computed style not hidden (the canvas's own visibility inherits the
container's `visibility`) and a non-degenerate bounding box (zero when
the container is not displayed). -/
def canvasReady (lay : LayerStyle) (c : CanvasElem) : Bool :=
  let effW : ℚ := if lay.display then c.rectW else 0
  let effH : ℚ := if lay.display then c.rectH else 0
  (c.styleVisible && lay.visible) && (0 < effW && 0 < effH)

/-- The per-canvas loop of `createSystemContexts`, over the listed canvas
indices.  Missing canvases are skipped; non-ready canvases are skipped
with a warning (`continue`); a canvas whose existing context is lost
aborts the whole call (`return`); otherwise a context is created when the
platform allows it. -/
def csLoopGo (lay : LayerStyle) : List (Fin 5) → (Fin 5 → CanvasElem) → (Fin 5 → CanvasElem)
  | [], cs => cs
  | i :: rest, cs =>
    let c := cs i
    if c.present then
      if canvasReady lay c then
        if c.hasContext then
          if c.contextLost then cs
          else csLoopGo lay rest cs
        else if c.webglOk then
          csLoopGo lay rest
            (fun j => if j = i then { c with hasContext := true, contextLost := false } else cs j)
        else csLoopGo lay rest cs
      else csLoopGo lay rest cs
    else csLoopGo lay rest cs

/-- The capacity guard at the top of `createSystemContexts`: when the
total live count is at least 16, every other system's contexts are
force-destroyed (the caller is not refused). -/
def csGuard (st : PoolState) (s : SystemName) : PoolState :=
  if 16 ≤ getTotalWebGLContextCount st then
    (systemNames.filter (fun x => x ≠ s)).foldl destroySystemContexts st
  else st

/-- The mobile visibility fix of `createSystemContexts`: when the
target's layer container has `display:none`, it is made fully visible
before the creation loop runs. -/
def csMobileFix (st : PoolState) (s : SystemName) : PoolState :=
  if (getSlot st s).layer.display = false then
    updSlot st s fun sl => { sl with layer := ⟨true, true, true⟩ }
  else st

/-- Failure kinds of the spec's acquisition contract (§7); the source
function never reports any of them to its caller. -/
inductive AcquireFailure
  | surfaceNotReady
  | capacityExceeded
  | contextCreationFailed
deriving DecidableEq, Repr

/-- `createSystemContexts(systemName)`: capacity guard, mobile visibility
fix, then the staggered per-canvas creation loop.  The JavaScript function
returns `undefined` in every path — no `AcquireFailure` is ever reported
to the caller, which we record in the `Option AcquireFailure` component
always being `none`. -/
def createSystemContexts (st : PoolState) (s : SystemName) :
    PoolState × Option AcquireFailure :=
  let st1 := csGuard st s
  let st2 := csMobileFix st1 s
  let st3 := updSlot st2 s fun sl =>
    { sl with canvases := csLoopGo sl.layer (List.finRange 5) sl.canvases }
  (st3, none)

/-- `preloadSystem(systemName)`. -/
def preloadSystem (st : PoolState) (s : SystemName) : PoolState :=
  (createSystemContexts st s).1

/-- `validateSystemContexts(systemName)`: a live context always passes the
`createProgram` probe in this model; the call succeeds when at least one
valid context exists (`validContexts > 0`). -/
def validateSystemContexts (st : PoolState) (s : SystemName) : Bool :=
  0 < countSystemContexts st s

/-- `engine.setActive(b)` for the engine of system `s`, if one exists.
The quantum and holographic engines in the sources set their own layer
container's `display` (`block` on activate, `none` on deactivate) besides
toggling their active flag; the faceted engine class is not under `src/`
and is modelled with the same contract (the spec's `set_active` toggles
the render loop). -/
def engineSetActive (st : PoolState) (s : SystemName) (b : Bool) : PoolState :=
  match (getSlot st s).engine with
  | none => st
  | some _ =>
    updSlot st s fun sl =>
      { sl with engine := some ⟨b⟩, layer := { sl.layer with display := b } }

/-- Which engine class the `switch` statement of `createEngineForSystem`
can instantiate for each system (the polychora branch is not
implemented). -/
def classAvailable (cl : EngineClasses) : SystemName → Bool
  | .faceted => cl.vib34d
  | .quantum => cl.quantum
  | .holographic => cl.holographic
  | .polychora => false

/-- `createEngineForSystem(systemName)`: constructs the engine when its
class was passed to the pool, installing it in the system's global.
Freshly constructed engines start with `isActive = false`; engine
constructors do not touch the layer containers.  (Renderer construction
internals live in classes outside the pool and are not part of the
modelled observables.) -/
def createEngineForSystem (st : PoolState) (s : SystemName) :
    PoolState × Option EngineObj :=
  if classAvailable st.classes s then
    (updSlot st s (fun sl => { sl with engine := some ⟨false⟩ }), some ⟨false⟩)
  else (st, none)

/-- First half of `switchToSystem`'s fresh-switch path: hide all layer
containers, deactivate the previous engine (if any) and destroy its
contexts, show the target's layers, and record the new `activeSystem`. -/
def switchFreshPrep (st : PoolState) (s : SystemName) : PoolState :=
  let st1 := hideAllLayers st
  let st2 :=
    match st.activeSystem with
    | some p => destroySystemContexts (engineSetActive st1 p false) p
    | none => st1
  let st3 := showSystemLayers st2 s
  { st3 with activeSystem := some s }

/-- Tail of the fresh-switch path, after context creation: validate the
target's contexts (`return null` on failure), get or create the engine
(reinitialization of a reused engine's visualizers is internal to the
engine), and activate it. -/
def switchFinishCore (st5 : PoolState) (s : SystemName) :
    PoolState × Option EngineObj :=
  if validateSystemContexts st5 s then
    match (getSlot st5 s).engine with
    | some _ => (engineSetActive st5 s true, some ⟨true⟩)
    | none =>
      match (createEngineForSystem st5 s).2 with
      | some _ => (engineSetActive (createEngineForSystem st5 s).1 s true, some ⟨true⟩)
      | none => ((createEngineForSystem st5 s).1, none)
  else (st5, none)

/-- Second half of the fresh-switch path: create contexts when none
exist ("Creating contexts for ... (none exist)" vs "Reusing existing ...
contexts"), then validate/instantiate/activate via `switchFinishCore`. -/
def switchFreshFinish (st4 : PoolState) (s : SystemName) :
    PoolState × Option EngineObj :=
  switchFinishCore
    (if countSystemContexts st4 s = 0 then (createSystemContexts st4 s).1 else st4) s

/-- `switchToSystem(systemName)`.  Returns the resulting state and the
returned engine (`none` models a `null` return, a failed switch).  When
the target is already the active system, the call only re-shows the
target's layers and re-activates its engine ("Already on ... - just
activating engine"); otherwise it runs the fresh-switch path. -/
def switchToSystem (st : PoolState) (s : SystemName) : PoolState × Option EngineObj :=
  if st.activeSystem = some s then
    let st1 := showSystemLayers st s
    match (getSlot st1 s).engine with
    | some _ => (engineSetActive st1 s true, some ⟨true⟩)
    | none => (st1, none)
  else
    switchFreshFinish (switchFreshPrep st s) s

/-- A system's surfaces count as composited when their layer container is
displayed, visible and opaque (all three style flags on). -/
def composited (st : PoolState) (s : SystemName) : Bool :=
  (getSlot st s).layer.display && (getSlot st s).layer.visible &&
    (getSlot st s).layer.opaq

/-- A sequence of `switchToSystem` calls, keeping only the state. -/
def runSwitches (st : PoolState) (l : List SystemName) : PoolState :=
  l.foldl (fun a t => (switchToSystem a t).1) st

/-! ## RealHolographicSystem (`src/holograms/RealHolographicSystem.js`)

Variant / parameter-override logic.  A visualizer's generated parameter
tables come from `HolographicVisualizer.generateVariantParams` and
`generateRoleParams`, which live in a class that is not under `src/`;
both are kept abstract (the theorems below quantify over them), so the
results hold for every possible generator. -/

/-- One `HolographicVisualizer`, reduced to the fields
`RealHolographicSystem` reads and writes. -/
structure HoloVisualizer where
  role : String
  variant : ℤ
  variantParams : String → ℚ
  roleParams : String → ℚ

/-- Modelled from the spec: `HolographicVisualizer.updateParameters`
(the visualizer class is not under `src/`) applies the given single-field
parameter map onto the renderer's current per-variant parameters
("`update_param` forwards to the Parameter Store; the renderers see the
change on the next tick"). -/
def HoloVisualizer.updateParameters (viz : HoloVisualizer) (p : String) (v : ℚ) :
    HoloVisualizer :=
  { viz with variantParams := fun q => if q = p then v else viz.variantParams q }

/-- The `RealHolographicSystem` state relevant to variants and overrides.
`customParams` starts absent (`undefined`), modelled as the everywhere-
`none` map. -/
structure HoloSystem where
  currentVariant : ℤ
  totalVariants : ℤ
  customParams : String → Option ℚ
  visualizers : List HoloVisualizer

/-- `RealHolographicSystem.updateParameter(param, value)`: records the
sticky override and pushes the change to every visualizer. -/
def HoloSystem.updateParameter (sys : HoloSystem) (p : String) (v : ℚ) :
    HoloSystem :=
  { sys with
    customParams := fun q => if q = p then some v else sys.customParams q,
    visualizers := sys.visualizers.map fun viz => viz.updateParameters p v }

/-- The wrap-around at the top of `updateVariant`: negatives wrap to the
last variant, overflow wraps to 0. -/
def wrapVariant (total v : ℤ) : ℤ :=
  if v < 0 then total - 1 else if total ≤ v then 0 else v

/-- `RealHolographicSystem.updateVariant(newVariant)`: wrap the index,
store it, then for every visualizer regenerate `variantParams` and
`roleParams` fresh and re-apply every sticky override on top of
`variantParams`.  `gen` abstracts `generateVariantParams` and `genRole`
abstracts `generateRoleParams`. -/
def HoloSystem.updateVariant (gen : ℤ → String → ℚ) (genRole : String → String → ℚ)
    (sys : HoloSystem) (v : ℤ) : HoloSystem :=
  let nv := wrapVariant sys.totalVariants v
  { sys with
    currentVariant := nv,
    visualizers := sys.visualizers.map fun viz =>
      { viz with
        variant := nv,
        variantParams := fun q =>
          match sys.customParams q with
          | some w => w
          | none => gen nv q,
        roleParams := genRole viz.role } }

/-- `RealHolographicSystem.setVariant(variant)` forwards to
`updateVariant`. -/
def HoloSystem.setVariant (gen : ℤ → String → ℚ) (genRole : String → String → ℚ)
    (sys : HoloSystem) (v : ℤ) : HoloSystem :=
  HoloSystem.updateVariant gen genRole sys v


/-- The end-to-end variant/override scenario of the spec
(`set_variant(v)`, `update_param(f, w)`, `set_variant(v2)`) run against
the embedded `RealHolographicSystem`. -/
def overrideScenario (gen : ℤ → String → ℚ) (genRole : String → String → ℚ)
    (sys0 : HoloSystem) (v v2 : ℤ) (f : String) (w : ℚ) : HoloSystem :=
  HoloSystem.updateVariant gen genRole
    (HoloSystem.updateParameter (HoloSystem.updateVariant gen genRole sys0 v) f w) v2

/-- A constant variant-parameter generator used for concrete evaluation. -/
def gen7 : ℤ → String → ℚ := fun _ _ => 7

/-- A constant role-parameter generator used for concrete evaluation. -/
def role1 : String → String → ℚ := fun _ _ => 1

/-- A fresh holographic system with one visualizer and no overrides. -/
def sysW : HoloSystem :=
  { currentVariant := 0, totalVariants := 30, customParams := fun _ => none,
    visualizers := [⟨"content", 0, fun _ => 0, fun _ => 0⟩] }

/-! ## Concrete states used by the closed evaluations -/

/-- A visible, WebGL-capable canvas with no context yet (the defaults of
`CanvasElem`). -/
def readyCanvas : CanvasElem := {}

/-- A canvas holding a live context. -/
def liveCanvas : CanvasElem := { hasContext := true }

/-- A canvas whose context has been lost by the driver. -/
def lostCanvas : CanvasElem := { hasContext := true, contextLost := true }

/-- A canvas whose bounding box has zero width. -/
def zeroWidthCanvas : CanvasElem := { rectW := 0 }

/-- A slot with five ready canvases, a visible layer container and no
engine. -/
def readySlot : SystemSlot :=
  { canvases := fun _ => readyCanvas, layer := ⟨true, true, true⟩, engine := none }

/-- A slot with five ready canvases, a hidden layer container and no
engine. -/
def hiddenSlot : SystemSlot :=
  { canvases := fun _ => readyCanvas, layer := ⟨false, false, false⟩, engine := none }

/-- Cold-start pool: no active system, four systems with ready canvases
whose containers are all visible (as a page that has not hidden them). -/
def poolAllReady : PoolState :=
  { activeSystem := none, faceted := readySlot, quantum := readySlot,
    holographic := readySlot, polychora := readySlot, classes := {} }

/-- Cold-start pool with every layer container hidden. -/
def poolCold : PoolState :=
  { activeSystem := none, faceted := hiddenSlot, quantum := hiddenSlot,
    holographic := hiddenSlot, polychora := hiddenSlot, classes := {} }

/-- The pool after pre-loading contexts for all four systems in turn. -/
def poolAfterFourPreloads : PoolState :=
  preloadSystem (preloadSystem (preloadSystem (preloadSystem poolAllReady
    .faceted) .quantum) .holographic) .polychora

/-- A healthy active holographic slot: five live contexts, visible
layers, an active engine. -/
def healthySlot : SystemSlot :=
  { canvases := fun _ => liveCanvas, layer := ⟨true, true, true⟩,
    engine := some ⟨true⟩ }

/-- A pool whose active holographic system is healthy. -/
def poolHealthy : PoolState :=
  { activeSystem := some .holographic, faceted := hiddenSlot,
    quantum := hiddenSlot, holographic := healthySlot,
    polychora := hiddenSlot, classes := {} }

/-- An unhealthy active holographic slot: the background canvas's
context is lost, the other four are live; the engine exists and is
active. -/
def unhealthySlot : SystemSlot :=
  { canvases := fun i => if i = 0 then lostCanvas else liveCanvas,
    layer := ⟨true, true, true⟩, engine := some ⟨true⟩ }

/-- A pool whose active holographic system has a lost context. -/
def poolUnhealthy : PoolState :=
  { activeSystem := some .holographic, faceted := hiddenSlot,
    quantum := hiddenSlot, holographic := unhealthySlot,
    polychora := hiddenSlot, classes := {} }

/-- A holographic slot whose background canvas is zero-width and whose
other four canvases are ready; no contexts exist yet. -/
def zeroWidthSlot : SystemSlot :=
  { canvases := fun i => if i = 0 then zeroWidthCanvas else readyCanvas,
    layer := ⟨true, true, true⟩, engine := none }

/-- A pool about to acquire the holographic five-surface set with one
zero-sized surface. -/
def poolZeroWidth : PoolState :=
  { activeSystem := none, faceted := hiddenSlot, quantum := hiddenSlot,
    holographic := zeroWidthSlot, polychora := hiddenSlot, classes := {} }

/-- Scheduler invariant tying compositing to the active system: before
the first switch `activeSystem` is `null`; afterwards exactly the active
system's layers are composited. -/
def PoolInv (st : PoolState) : Prop :=
  st.activeSystem = none ∨ ∀ x, (composited st x = true ↔ st.activeSystem = some x)

/-! ## Helper lemmas -/

theorem jsRound_eq_int (x : ℝ) (n : ℤ) (h₁ : (n : ℝ) ≤ x + 1 / 2)
    (h₂ : x + 1 / 2 < (n : ℝ) + 1) : jsRound x = (n : ℝ) := by
  unfold jsRound
  have h : round x = n := by
    rw [round_eq]
    apply Int.floor_eq_iff.mpr
    constructor
    · exact h₁
    · exact_mod_cast h₂
  rw [h]

theorem toFixed2_eval (x : ℝ) (n : ℤ) (h₁ : (n : ℝ) ≤ 100 * x + 1 / 2)
    (h₂ : 100 * x + 1 / 2 < (n : ℝ) + 1) : toFixed2 x = (n : ℝ) / 100 := by
  unfold toFixed2
  rw [jsRound_eq_int (100 * x) n h₁ h₂]

theorem jsRem_of_nonneg_of_lt (a b : ℝ) (h0 : 0 ≤ a) (hab : a < b) :
    jsRem a b = a := by
  have hb : 0 < b := lt_of_le_of_lt h0 hab
  have hq0 : 0 ≤ a / b := div_nonneg h0 hb.le
  have hq1 : a / b < 1 := (div_lt_one hb).mpr hab
  have htr : jsTrunc (a / b) = 0 := by
    unfold jsTrunc
    rw [if_pos hq0]
    have : ⌊a / b⌋ = 0 := by
      apply Int.floor_eq_iff.mpr
      constructor
      · simpa using hq0
      · simpa using hq1
    rw [this]
    norm_num
  unfold jsRem
  rw [htr]
  ring


theorem getSlot_setSlot_self (st : PoolState) (s : SystemName) (sl : SystemSlot) :
    getSlot (setSlot st s sl) s = sl := by
  cases s <;> rfl

theorem getSlot_setSlot_ne (st : PoolState) (s x : SystemName) (sl : SystemSlot)
    (h : x ≠ s) : getSlot (setSlot st s sl) x = getSlot st x := by
  cases s <;> cases x <;> simp_all [getSlot, setSlot]

theorem setSlot_getSlot_self (st : PoolState) (s : SystemName) :
    setSlot st s (getSlot st s) = st := by
  cases st
  cases s <;> rfl

theorem activeSystem_setSlot (st : PoolState) (s : SystemName) (sl : SystemSlot) :
    (setSlot st s sl).activeSystem = st.activeSystem := by
  cases s <;> rfl

theorem getSlot_updSlot_self (st : PoolState) (s : SystemName) (f : SystemSlot → SystemSlot) :
    getSlot (updSlot st s f) s = f (getSlot st s) := by
  unfold updSlot
  exact getSlot_setSlot_self ..

theorem getSlot_updSlot_ne (st : PoolState) (s x : SystemName) (f : SystemSlot → SystemSlot)
    (h : x ≠ s) : getSlot (updSlot st s f) x = getSlot st x := by
  unfold updSlot
  exact getSlot_setSlot_ne _ _ _ _ h

theorem countSystemContexts_congr (st₁ st₂ : PoolState) (x : SystemName)
    (h : (getSlot st₁ x).canvases = (getSlot st₂ x).canvases) :
    countSystemContexts st₁ x = countSystemContexts st₂ x := by
  unfold countSystemContexts
  rw [h]

theorem countSystemContexts_le_five (st : PoolState) (s : SystemName) :
    countSystemContexts st s ≤ 5 := by
  unfold countSystemContexts
  rw [show List.finRange 5 = [0, 1, 2, 3, 4] from rfl]
  simp only [List.map_cons, List.map_nil, List.sum_cons, List.sum_nil]
  split_ifs <;> norm_num

theorem canvasLive_destroyed (c : CanvasElem) :
    canvasLive (if c.present then { c with hasContext := false, contextLost := false }
      else c) = false := by
  cases hc : c.present <;> simp [canvasLive, hc]

theorem countSystemContexts_destroy (st : PoolState) (x y : SystemName) :
    countSystemContexts (destroySystemContexts st x) y =
      if y = x then 0 else countSystemContexts st y := by
  by_cases h : y = x
  · subst h
    rw [if_pos rfl]
    unfold countSystemContexts destroySystemContexts
    rw [getSlot_updSlot_self]
    simp [canvasLive_destroyed]
  · rw [if_neg h]
    apply countSystemContexts_congr
    unfold destroySystemContexts
    rw [getSlot_updSlot_ne _ _ _ _ h]

theorem total_eq (st : PoolState) :
    getTotalWebGLContextCount st =
      countSystemContexts st .faceted + (countSystemContexts st .quantum +
        (countSystemContexts st .holographic + (countSystemContexts st .polychora + 0))) := rfl

theorem total_csGuard_le (st : PoolState) (s : SystemName) :
    getTotalWebGLContextCount (csGuard st s) ≤ 15 := by
  unfold csGuard
  split
  · cases s
    · rw [show systemNames.filter (fun x => x ≠ SystemName.faceted) =
          [.quantum, .holographic, .polychora] from by decide]
      simp only [List.foldl]
      rw [total_eq]
      simp only [countSystemContexts_destroy]
      simp
      have := countSystemContexts_le_five st .faceted
      omega
    · rw [show systemNames.filter (fun x => x ≠ SystemName.quantum) =
          [.faceted, .holographic, .polychora] from by decide]
      simp only [List.foldl]
      rw [total_eq]
      simp only [countSystemContexts_destroy]
      simp
      have := countSystemContexts_le_five st .quantum
      omega
    · rw [show systemNames.filter (fun x => x ≠ SystemName.holographic) =
          [.faceted, .quantum, .polychora] from by decide]
      simp only [List.foldl]
      rw [total_eq]
      simp only [countSystemContexts_destroy]
      simp
      have := countSystemContexts_le_five st .holographic
      omega
    · rw [show systemNames.filter (fun x => x ≠ SystemName.polychora) =
          [.faceted, .quantum, .holographic] from by decide]
      simp only [List.foldl]
      rw [total_eq]
      simp only [countSystemContexts_destroy]
      simp
      have := countSystemContexts_le_five st .polychora
      omega
  · omega

theorem countSystemContexts_csMobileFix (st : PoolState) (s x : SystemName) :
    countSystemContexts (csMobileFix st s) x = countSystemContexts st x := by
  unfold csMobileFix
  split
  · apply countSystemContexts_congr
    by_cases h : x = s
    · subst h
      rw [getSlot_updSlot_self]
    · rw [getSlot_updSlot_ne _ _ _ _ h]
  · rfl

theorem total_createSystemContexts_le (st : PoolState) (s : SystemName) :
    getTotalWebGLContextCount (createSystemContexts st s).1 ≤ 20 := by
  have hG := total_csGuard_le st s
  have hM : ∀ x, countSystemContexts (csMobileFix (csGuard st s) s) x =
      countSystemContexts (csGuard st s) x :=
    fun x => countSystemContexts_csMobileFix (csGuard st s) s x
  have hne : ∀ x, x ≠ s →
      countSystemContexts (createSystemContexts st s).1 x =
        countSystemContexts (csGuard st s) x := by
    intro x hx
    unfold createSystemContexts
    rw [← hM x]
    apply countSystemContexts_congr
    rw [getSlot_updSlot_ne _ _ _ _ hx]
  have h5 : countSystemContexts (createSystemContexts st s).1 s ≤ 5 :=
    countSystemContexts_le_five _ _
  rw [total_eq] at hG ⊢
  cases s
  · rw [hne .quantum (by simp), hne .holographic (by simp), hne .polychora (by simp)]
    omega
  · rw [hne .faceted (by simp), hne .holographic (by simp), hne .polychora (by simp)]
    omega
  · rw [hne .faceted (by simp), hne .quantum (by simp), hne .polychora (by simp)]
    omega
  · rw [hne .faceted (by simp), hne .quantum (by simp), hne .holographic (by simp)]
    omega

theorem csLoopGo_apply (lay : LayerStyle) :
    ∀ (l : List (Fin 5)) (cs : Fin 5 → CanvasElem),
      (∀ j, (cs j).hasContext = true → (cs j).contextLost = false) →
      ∀ j : Fin 5,
      (csLoopGo lay l cs) j =
        if j ∈ l ∧ (cs j).present = true ∧ canvasReady lay (cs j) = true ∧
            (cs j).hasContext = false ∧ (cs j).webglOk = true
        then { cs j with hasContext := true, contextLost := false }
        else cs j := by
  intro l
  induction l with
  | nil =>
    intro cs hsafe j
    simp [csLoopGo]
  | cons i rest ih =>
    intro cs hsafe j
    unfold csLoopGo
    by_cases hp : (cs i).present
    · rw [if_pos hp]
      by_cases hr : canvasReady lay (cs i)
      · rw [if_pos hr]
        by_cases hc : (cs i).hasContext
        · rw [if_pos hc, if_neg (by simp [hsafe i hc])]
          rw [ih cs hsafe j]
          by_cases hj : j = i
          · subst hj
            simp [hc]
          · simp [List.mem_cons, hj]
        · rw [if_neg hc]
          by_cases hw : (cs i).webglOk
          · rw [if_pos hw]
            set cs' := fun k => if k = i then
                { cs i with hasContext := true, contextLost := false } else cs k with hcs'
            have hsafe' : ∀ k, (cs' k).hasContext = true → (cs' k).contextLost = false := by
              intro k hk
              by_cases hki : k = i
              · simp [hcs', hki]
              · simp only [hcs', if_neg hki] at hk ⊢
                exact hsafe k hk
            rw [ih cs' hsafe' j]
            by_cases hj : j = i
            · subst hj
              simp [hcs', hp, hr, hc, hw]
            · simp only [hcs', if_neg hj]
              simp [List.mem_cons, hj]
          · rw [if_neg hw]
            rw [ih cs hsafe j]
            by_cases hj : j = i
            · subst hj
              simp [hw]
            · simp [List.mem_cons, hj]
      · rw [if_neg hr]
        rw [ih cs hsafe j]
        by_cases hj : j = i
        · subst hj
          simp [hr]
        · simp [List.mem_cons, hj]
    · rw [if_neg hp]
      rw [ih cs hsafe j]
      by_cases hj : j = i
      · subst hj
        simp [hp]
      · simp [List.mem_cons, hj]

theorem getSlot_destroy_ne (st : PoolState) (y x : SystemName) (h : x ≠ y) :
    getSlot (destroySystemContexts st y) x = getSlot st x := by
  unfold destroySystemContexts
  exact getSlot_updSlot_ne _ _ _ _ h

theorem layer_destroy (st : PoolState) (y x : SystemName) :
    (getSlot (destroySystemContexts st y) x).layer = (getSlot st x).layer := by
  by_cases h : x = y
  · subst h
    unfold destroySystemContexts
    rw [getSlot_updSlot_self]
  · rw [getSlot_destroy_ne _ _ _ h]

theorem engine_destroy (st : PoolState) (y x : SystemName) :
    (getSlot (destroySystemContexts st y) x).engine = (getSlot st x).engine := by
  by_cases h : x = y
  · subst h
    unfold destroySystemContexts
    rw [getSlot_updSlot_self]
  · rw [getSlot_destroy_ne _ _ _ h]

theorem activeSystem_destroy (st : PoolState) (y : SystemName) :
    (destroySystemContexts st y).activeSystem = st.activeSystem := by
  unfold destroySystemContexts updSlot
  exact activeSystem_setSlot ..

theorem foldl_destroy_getSlot (x : SystemName) :
    ∀ (l : List SystemName) (st : PoolState), x ∉ l →
      getSlot (l.foldl destroySystemContexts st) x = getSlot st x := by
  intro l
  induction l with
  | nil => intro st _; rfl
  | cons y rest ih =>
    intro st hx
    simp only [List.foldl_cons]
    rw [ih _ (fun hm => hx (List.mem_cons_of_mem _ hm))]
    exact getSlot_destroy_ne _ _ _ (fun he => hx (he ▸ List.mem_cons_self _ _))

theorem foldl_destroy_layer (x : SystemName) :
    ∀ (l : List SystemName) (st : PoolState),
      (getSlot (l.foldl destroySystemContexts st) x).layer = (getSlot st x).layer := by
  intro l
  induction l with
  | nil => intro st; rfl
  | cons y rest ih =>
    intro st
    simp only [List.foldl_cons]
    rw [ih]
    exact layer_destroy ..

theorem foldl_destroy_engine (x : SystemName) :
    ∀ (l : List SystemName) (st : PoolState),
      (getSlot (l.foldl destroySystemContexts st) x).engine = (getSlot st x).engine := by
  intro l
  induction l with
  | nil => intro st; rfl
  | cons y rest ih =>
    intro st
    simp only [List.foldl_cons]
    rw [ih]
    exact engine_destroy ..

theorem foldl_destroy_activeSystem :
    ∀ (l : List SystemName) (st : PoolState),
      (l.foldl destroySystemContexts st).activeSystem = st.activeSystem := by
  intro l
  induction l with
  | nil => intro st; rfl
  | cons y rest ih =>
    intro st
    simp only [List.foldl_cons]
    rw [ih]
    exact activeSystem_destroy ..

theorem getSlot_csGuard_self (st : PoolState) (s : SystemName) :
    getSlot (csGuard st s) s = getSlot st s := by
  unfold csGuard
  split
  · exact foldl_destroy_getSlot s _ st (by simp)
  · rfl

theorem layer_csGuard (st : PoolState) (s x : SystemName) :
    (getSlot (csGuard st s) x).layer = (getSlot st x).layer := by
  unfold csGuard
  split
  · exact foldl_destroy_layer x _ st
  · rfl

theorem engine_csGuard (st : PoolState) (s x : SystemName) :
    (getSlot (csGuard st s) x).engine = (getSlot st x).engine := by
  unfold csGuard
  split
  · exact foldl_destroy_engine x _ st
  · rfl

theorem activeSystem_csGuard (st : PoolState) (s : SystemName) :
    (csGuard st s).activeSystem = st.activeSystem := by
  unfold csGuard
  split
  · exact foldl_destroy_activeSystem _ st
  · rfl

theorem getSlot_csMobileFix_ne (st : PoolState) (s x : SystemName) (h : x ≠ s) :
    getSlot (csMobileFix st s) x = getSlot st x := by
  unfold csMobileFix
  split
  · exact getSlot_updSlot_ne _ _ _ _ h
  · rfl

theorem canvases_csMobileFix (st : PoolState) (s x : SystemName) :
    (getSlot (csMobileFix st s) x).canvases = (getSlot st x).canvases := by
  by_cases h : x = s
  · subst h
    unfold csMobileFix
    split
    · rw [getSlot_updSlot_self]
    · rfl
  · rw [getSlot_csMobileFix_ne _ _ _ h]

theorem engine_csMobileFix (st : PoolState) (s x : SystemName) :
    (getSlot (csMobileFix st s) x).engine = (getSlot st x).engine := by
  by_cases h : x = s
  · subst h
    unfold csMobileFix
    split
    · rw [getSlot_updSlot_self]
    · rfl
  · rw [getSlot_csMobileFix_ne _ _ _ h]

theorem layer_csMobileFix_self (st : PoolState) (s : SystemName) :
    (getSlot (csMobileFix st s) s).layer =
      if (getSlot st s).layer.display then (getSlot st s).layer
      else ⟨true, true, true⟩ := by
  unfold csMobileFix
  by_cases h : (getSlot st s).layer.display = false
  · rw [if_pos h, getSlot_updSlot_self]
    simp [h]
  · rw [if_neg h]
    simp only [Bool.not_eq_false] at h
    simp [h]

theorem activeSystem_csMobileFix (st : PoolState) (s : SystemName) :
    (csMobileFix st s).activeSystem = st.activeSystem := by
  unfold csMobileFix
  split
  · unfold updSlot
    exact activeSystem_setSlot ..
  · rfl

theorem createSystemContexts_snd (st : PoolState) (s : SystemName) :
    (createSystemContexts st s).2 = none := rfl

theorem getSlot_createSystemContexts_ne (st : PoolState) (s x : SystemName) (h : x ≠ s) :
    getSlot (createSystemContexts st s).1 x = getSlot (csGuard st s) x := by
  unfold createSystemContexts
  rw [getSlot_updSlot_ne _ _ _ _ h, getSlot_csMobileFix_ne _ _ _ h]

theorem layer_createSystemContexts (st : PoolState) (s x : SystemName) :
    (getSlot (createSystemContexts st s).1 x).layer =
      (getSlot (csMobileFix (csGuard st s) s) x).layer := by
  by_cases h : x = s
  · subst h
    unfold createSystemContexts
    rw [getSlot_updSlot_self]
  · unfold createSystemContexts
    rw [getSlot_updSlot_ne _ _ _ _ h]

theorem engine_createSystemContexts (st : PoolState) (s x : SystemName) :
    (getSlot (createSystemContexts st s).1 x).engine = (getSlot st x).engine := by
  by_cases h : x = s
  · subst h
    unfold createSystemContexts
    rw [getSlot_updSlot_self]
    simp only [engine_csMobileFix, engine_csGuard]
  · unfold createSystemContexts
    rw [getSlot_updSlot_ne _ _ _ _ h, getSlot_csMobileFix_ne _ _ _ h]
    rw [engine_csGuard]

theorem activeSystem_createSystemContexts (st : PoolState) (s : SystemName) :
    (createSystemContexts st s).1.activeSystem = st.activeSystem := by
  unfold createSystemContexts updSlot
  rw [activeSystem_setSlot, activeSystem_csMobileFix, activeSystem_csGuard]

theorem canvases_createSystemContexts_self (st : PoolState) (s : SystemName) :
    (getSlot (createSystemContexts st s).1 s).canvases =
      csLoopGo (getSlot (csMobileFix (csGuard st s) s) s).layer (List.finRange 5)
        (getSlot (csMobileFix (csGuard st s) s) s).canvases := by
  unfold createSystemContexts
  rw [getSlot_updSlot_self]

/-- C2 (amended): a surface that is present but zero-sized or invisible
at acquire time gets no context — it is skipped with a logged warning —
while the batch continues with the remaining surfaces, and no
`SurfaceNotReady` outcome is reported to the caller of the five-surface
acquisition (the source function returns `undefined` on every path).
Stated for a fresh batch (no contexts exist yet) with the target's layer
container shown, as on the switch path. -/
theorem claim2_surface_not_ready_skipped (st : PoolState) (s : SystemName) (i : Fin 5)
    (hpres : ((getSlot st s).canvases i).present = true)
    (hbad : ((getSlot st s).canvases i).styleVisible = false ∨
        ((getSlot st s).canvases i).rectW ≤ 0 ∨ ((getSlot st s).canvases i).rectH ≤ 0)
    (hfresh : ∀ j, ((getSlot st s).canvases j).hasContext = false)
    (hlay : (getSlot st s).layer = ⟨true, true, true⟩) :
    (createSystemContexts st s).2 = none ∧
    ((getSlot (createSystemContexts st s).1 s).canvases i).hasContext = false ∧
    ∀ j, ((getSlot (createSystemContexts st s).1 s).canvases j).hasContext =
      (((getSlot st s).canvases j).present &&
        canvasReady ⟨true, true, true⟩ ((getSlot st s).canvases j) &&
        ((getSlot st s).canvases j).webglOk) := by
  have h1 : getSlot (csGuard st s) s = getSlot st s := getSlot_csGuard_self st s
  have hslot : getSlot (csMobileFix (csGuard st s) s) s = getSlot st s := by
    unfold csMobileFix
    rw [h1, hlay]
    simp
    exact h1
  have hsafe : ∀ j, (((getSlot st s).canvases j).hasContext = true →
      ((getSlot st s).canvases j).contextLost = false) := by
    intro j hj
    rw [hfresh j] at hj
    cases hj
  have hmain : ∀ j, ((getSlot (createSystemContexts st s).1 s).canvases j).hasContext =
      (((getSlot st s).canvases j).present &&
        canvasReady ⟨true, true, true⟩ ((getSlot st s).canvases j) &&
        ((getSlot st s).canvases j).webglOk) := by
    intro j
    rw [canvases_createSystemContexts_self, hslot, hlay,
      csLoopGo_apply ⟨true, true, true⟩ (List.finRange 5) _ hsafe j]
    split
    case isTrue h =>
      simp [h.2.1, h.2.2.1, h.2.2.2.2]
    case isFalse h =>
      rw [hfresh j]
      by_cases hp : ((getSlot st s).canvases j).present = true
      · by_cases hr : canvasReady ⟨true, true, true⟩ ((getSlot st s).canvases j) = true
        · by_cases hw : ((getSlot st s).canvases j).webglOk = true
          · exact absurd ⟨List.mem_finRange j, hp, hr, hfresh j, hw⟩ h
          · simp [Bool.eq_false_iff.mpr hw]
        · simp [Bool.eq_false_iff.mpr hr]
      · simp [Bool.eq_false_iff.mpr hp]
  refine ⟨rfl, ?_, hmain⟩
  rw [hmain i]
  rcases hbad with h | h | h
  · simp [canvasReady, h]
  · simp [canvasReady, show (0 < ((getSlot st s).canvases i).rectW) = False from
      eq_false (not_lt.mpr h)]
  · simp [canvasReady, show (0 < ((getSlot st s).canvases i).rectH) = False from
      eq_false (not_lt.mpr h)]

theorem getSlot_withActive (st : PoolState) (a : Option SystemName) (x : SystemName) :
    getSlot { st with activeSystem := a } x = getSlot st x := by
  cases x <;> rfl

theorem composited_hideAllLayers (st : PoolState) (x : SystemName) :
    composited (hideAllLayers st) x = false := by
  cases x <;> rfl

theorem activeSystem_hideAllLayers (st : PoolState) :
    (hideAllLayers st).activeSystem = st.activeSystem := rfl

theorem composited_showSystemLayers_self (st : PoolState) (s : SystemName) :
    composited (showSystemLayers st s) s = true := by
  unfold composited showSystemLayers
  rw [getSlot_updSlot_self]
  rfl

theorem composited_showSystemLayers_ne (st : PoolState) (s x : SystemName)
    (h : x ≠ s) : composited (showSystemLayers st s) x = composited st x := by
  unfold composited showSystemLayers
  rw [getSlot_updSlot_ne _ _ _ _ h]

theorem layer_showSystemLayers_self (st : PoolState) (s : SystemName) :
    (getSlot (showSystemLayers st s) s).layer = ⟨true, true, true⟩ := by
  unfold showSystemLayers
  rw [getSlot_updSlot_self]

theorem activeSystem_showSystemLayers (st : PoolState) (s : SystemName) :
    (showSystemLayers st s).activeSystem = st.activeSystem := by
  unfold showSystemLayers updSlot
  exact activeSystem_setSlot ..

theorem composited_engineSetActive_ne (st : PoolState) (p : SystemName) (b : Bool)
    (x : SystemName) (h : x ≠ p) :
    composited (engineSetActive st p b) x = composited st x := by
  unfold engineSetActive
  cases (getSlot st p).engine
  · rfl
  · unfold composited
    rw [getSlot_updSlot_ne _ _ _ _ h]

theorem composited_engineSetActive_false (st : PoolState) (p : SystemName)
    (hc : composited st p = false) :
    composited (engineSetActive st p false) p = false := by
  unfold engineSetActive
  cases (getSlot st p).engine
  · exact hc
  · unfold composited
    rw [getSlot_updSlot_self]
    simp

theorem composited_engineSetActive_true_self (st : PoolState) (p : SystemName)
    (hc : composited st p = true) :
    composited (engineSetActive st p true) p = true := by
  unfold engineSetActive
  cases (getSlot st p).engine
  · exact hc
  · unfold composited at hc ⊢
    rw [getSlot_updSlot_self]
    simp_all

theorem activeSystem_engineSetActive (st : PoolState) (p : SystemName) (b : Bool) :
    (engineSetActive st p b).activeSystem = st.activeSystem := by
  unfold engineSetActive
  cases (getSlot st p).engine
  · rfl
  · unfold updSlot
    exact activeSystem_setSlot ..

theorem composited_destroy (st : PoolState) (y x : SystemName) :
    composited (destroySystemContexts st y) x = composited st x := by
  unfold composited
  rw [layer_destroy]

theorem composited_createEngineForSystem (st : PoolState) (s x : SystemName) :
    composited (createEngineForSystem st s).1 x = composited st x := by
  unfold createEngineForSystem composited
  split
  · by_cases h : x = s
    · subst h
      rw [getSlot_updSlot_self]
    · rw [getSlot_updSlot_ne _ _ _ _ h]
  · rfl

theorem activeSystem_createEngineForSystem (st : PoolState) (s : SystemName) :
    (createEngineForSystem st s).1.activeSystem = st.activeSystem := by
  unfold createEngineForSystem
  split
  · unfold updSlot
    exact activeSystem_setSlot ..
  · rfl

theorem composited_createSystemContexts (st : PoolState) (s : SystemName)
    (hd : (getSlot st s).layer.display = true) (x : SystemName) :
    composited (createSystemContexts st s).1 x = composited st x := by
  unfold composited
  rw [layer_createSystemContexts]
  by_cases h : x = s
  · subst h
    rw [layer_csMobileFix_self]
    have hg : (getSlot (csGuard st x) x).layer = (getSlot st x).layer := layer_csGuard st x x
    rw [hg]
    simp [hd]
  · rw [getSlot_csMobileFix_ne _ _ _ h, layer_csGuard]

theorem layer_createSystemContexts_self_displayed (st : PoolState) (s : SystemName)
    (hd : (getSlot st s).layer.display = true) :
    (getSlot (createSystemContexts st s).1 s).layer = (getSlot st s).layer := by
  rw [layer_createSystemContexts, layer_csMobileFix_self, layer_csGuard]
  simp [hd]

theorem composited_withActive (st : PoolState) (a : Option SystemName) (y : SystemName) :
    composited { st with activeSystem := a } y = composited st y := by
  unfold composited
  rw [getSlot_withActive]

theorem activeSystem_switchFreshPrep (st : PoolState) (s : SystemName) :
    (switchFreshPrep st s).activeSystem = some s := rfl

theorem composited_switchFreshPrep (st : PoolState) (s x : SystemName) :
    (composited (switchFreshPrep st s) x = true ↔ x = s) := by
  unfold switchFreshPrep
  rw [composited_withActive]
  by_cases hx : x = s
  · subst hx
    rw [composited_showSystemLayers_self]
    simp
  · rw [composited_showSystemLayers_ne _ _ _ hx]
    have h2 : composited
        (match st.activeSystem with
          | some p => destroySystemContexts (engineSetActive (hideAllLayers st) p false) p
          | none => hideAllLayers st) x = false := by
      cases st.activeSystem with
      | none => exact composited_hideAllLayers st x
      | some p =>
        rw [composited_destroy]
        by_cases hyp : x = p
        · subst hyp
          exact composited_engineSetActive_false _ _ (composited_hideAllLayers st x)
        · rw [composited_engineSetActive_ne _ _ _ _ hyp]
          exact composited_hideAllLayers st x
    rw [h2]
    simp [hx]

theorem layer_switchFreshPrep_self (st : PoolState) (s : SystemName) :
    (getSlot (switchFreshPrep st s) s).layer = ⟨true, true, true⟩ := by
  unfold switchFreshPrep
  rw [getSlot_withActive, layer_showSystemLayers_self]

theorem activeSystem_switchFinishCore (st5 : PoolState) (s : SystemName) :
    (switchFinishCore st5 s).1.activeSystem = st5.activeSystem := by
  unfold switchFinishCore
  split
  · split
    · rw [activeSystem_engineSetActive]
    · split
      · rw [activeSystem_engineSetActive, activeSystem_createEngineForSystem]
      · rw [activeSystem_createEngineForSystem]
  · rfl

theorem composited_switchFinishCore (st5 : PoolState) (s : SystemName)
    (hcomp : ∀ x, composited st5 x = true ↔ x = s) (x : SystemName) :
    (composited (switchFinishCore st5 s).1 x = true ↔ x = s) := by
  have h5s : composited st5 s = true := (hcomp s).mpr rfl
  unfold switchFinishCore
  split
  · split
    · by_cases hx : x = s
      · subst hx
        rw [composited_engineSetActive_true_self _ _ h5s]
        simp
      · rw [composited_engineSetActive_ne _ _ _ _ hx]
        exact hcomp x
    · split
      · by_cases hx : x = s
        · subst hx
          rw [composited_engineSetActive_true_self]
          · simp
          · rw [composited_createEngineForSystem]
            exact h5s
        · rw [composited_engineSetActive_ne _ _ _ _ hx, composited_createEngineForSystem]
          exact hcomp x
      · rw [composited_createEngineForSystem]
        exact hcomp x
  · exact hcomp x

theorem activeSystem_switchFreshFinish (st4 : PoolState) (s : SystemName) :
    (switchFreshFinish st4 s).1.activeSystem = st4.activeSystem := by
  unfold switchFreshFinish
  rw [activeSystem_switchFinishCore]
  split
  · exact activeSystem_createSystemContexts ..
  · rfl

theorem composited_switchFreshFinish (st4 : PoolState) (s : SystemName)
    (hlay : (getSlot st4 s).layer = ⟨true, true, true⟩)
    (hcomp : ∀ x, composited st4 x = true ↔ x = s) (x : SystemName) :
    (composited (switchFreshFinish st4 s).1 x = true ↔ x = s) := by
  unfold switchFreshFinish
  apply composited_switchFinishCore
  intro y
  have h5c : composited (if countSystemContexts st4 s = 0
      then (createSystemContexts st4 s).1 else st4) y = composited st4 y := by
    split
    · exact composited_createSystemContexts st4 s (by rw [hlay]) y
    · rfl
  rw [h5c]
  exact hcomp y

theorem switch_post (st : PoolState) (T : SystemName) (hinv : PoolInv st) :
    (switchToSystem st T).1.activeSystem = some T ∧
    ∀ x, (composited (switchToSystem st T).1 x = true ↔ x = T) := by
  by_cases hact : st.activeSystem = some T
  · have hinv' : ∀ x, composited st x = true ↔ st.activeSystem = some x := by
      rcases hinv with hnone | hi
      · rw [hnone] at hact
        exact absurd hact (by simp)
      · exact hi
    unfold switchToSystem
    rw [if_pos hact]
    cases heng : (getSlot (showSystemLayers st T) T).engine with
    | some e =>
      simp only [heng]
      constructor
      · rw [activeSystem_engineSetActive, activeSystem_showSystemLayers]
        exact hact
      · intro x
        by_cases hx : x = T
        · subst hx
          rw [composited_engineSetActive_true_self _ _ (composited_showSystemLayers_self st x)]
          simp
        · rw [composited_engineSetActive_ne _ _ _ _ hx, composited_showSystemLayers_ne _ _ _ hx]
          rw [hinv' x, hact]
          simp [hx]
          intro hTx
          exact hx hTx.symm
    | none =>
      simp only [heng]
      constructor
      · rw [activeSystem_showSystemLayers]
        exact hact
      · intro x
        by_cases hx : x = T
        · subst hx
          rw [composited_showSystemLayers_self]
          simp
        · rw [composited_showSystemLayers_ne _ _ _ hx]
          rw [hinv' x, hact]
          simp [hx]
          intro hTx
          exact hx hTx.symm
  · unfold switchToSystem
    rw [if_neg hact]
    constructor
    · rw [activeSystem_switchFreshFinish, activeSystem_switchFreshPrep]
    · intro x
      exact composited_switchFreshFinish _ _ (layer_switchFreshPrep_self st T)
        (fun y => composited_switchFreshPrep st T y) x

theorem switch_inv (st : PoolState) (T : SystemName) (h : PoolInv st) :
    PoolInv (switchToSystem st T).1 := by
  refine Or.inr fun x => ?_
  rw [(switch_post st T h).1, (switch_post st T h).2 x]
  simp [eq_comm]

theorem runSwitches_inv (st0 : PoolState) (h : PoolInv st0) :
    ∀ l : List SystemName, PoolInv (runSwitches st0 l) := by
  intro l
  induction l generalizing st0 with
  | nil => exact h
  | cons t rest ih =>
    exact ih (switchToSystem st0 t).1 (switch_inv st0 t h)

theorem slot_eta_allOn (sl : SystemSlot) (hl : sl.layer = ⟨true, true, true⟩) :
    ({ sl with layer := ⟨true, true, true⟩ } : SystemSlot) = sl := by
  cases sl
  simp_all

theorem showSystemLayers_noop (st : PoolState) (T : SystemName)
    (hlay : (getSlot st T).layer = ⟨true, true, true⟩) :
    showSystemLayers st T = st := by
  unfold showSystemLayers updSlot
  simp only []
  rw [slot_eta_allOn _ hlay, setSlot_getSlot_self]

theorem slot_eta_setActive (sl : SystemSlot) (he : sl.engine = some ⟨true⟩)
    (hl : sl.layer = ⟨true, true, true⟩) :
    ({ sl with
        engine := some ⟨true⟩,
        layer := { sl.layer with display := true } } : SystemSlot) = sl := by
  cases sl
  simp_all

theorem engineSetActive_true_noop (st : PoolState) (T : SystemName)
    (heng : (getSlot st T).engine = some ⟨true⟩)
    (hlay : (getSlot st T).layer = ⟨true, true, true⟩) :
    engineSetActive st T true = st := by
  unfold engineSetActive
  rw [heng]
  unfold updSlot
  simp only []
  rw [slot_eta_setActive _ heng hlay, setSlot_getSlot_self]

theorem total_csMobileFix (st : PoolState) (s : SystemName) :
    getTotalWebGLContextCount (csMobileFix st s) = getTotalWebGLContextCount st := by
  rw [total_eq, total_eq, countSystemContexts_csMobileFix, countSystemContexts_csMobileFix,
    countSystemContexts_csMobileFix, countSystemContexts_csMobileFix]

theorem canvases_showSystemLayers (st : PoolState) (s x : SystemName) :
    (getSlot (showSystemLayers st s) x).canvases = (getSlot st x).canvases := by
  unfold showSystemLayers
  by_cases h : x = s
  · subst h
    rw [getSlot_updSlot_self]
  · rw [getSlot_updSlot_ne _ _ _ _ h]

theorem canvases_engineSetActive (st : PoolState) (p : SystemName) (b : Bool)
    (x : SystemName) :
    (getSlot (engineSetActive st p b) x).canvases = (getSlot st x).canvases := by
  unfold engineSetActive
  cases (getSlot st p).engine
  · rfl
  · by_cases h : x = p
    · subst h
      rw [getSlot_updSlot_self]
    · rw [getSlot_updSlot_ne _ _ _ _ h]

/-! ## Claims -/

/-- C1 (amended): the pool's capacity guard never lets a batch creation
begin while the live count is 16 or more — entering the creation loop the
count is at most 15, because a call finding the count at 16 or above
first force-destroys every other system's contexts — and one
`createSystemContexts` call ends with at most 20 live contexts.  (The
claimed invariant `count ≤ 16` at all times is false, and the caller at
cap is not refused: see the counterexample.) -/
theorem claim1_batch_never_starts_at_cap (st : PoolState) (s : SystemName) :
    getTotalWebGLContextCount (csMobileFix (csGuard st s) s) ≤ 15 ∧
    getTotalWebGLContextCount (createSystemContexts st s).1 ≤ 20 :=
  ⟨by rw [total_csMobileFix]; exact total_csGuard_le st s,
    total_createSystemContexts_le st s⟩

/-- C1 counterexample: pre-loading the four systems in turn from a
cold start drives the live context count to 20, above the claimed cap of
16 (each batch begins below 16, so the guard never fires), and a further
`createSystemContexts` call at count 20 refuses nothing — it returns no
failure to its caller. -/
theorem claim1_cap_exceeded_cex :
    getTotalWebGLContextCount poolAfterFourPreloads = 20 ∧
    16 < getTotalWebGLContextCount poolAfterFourPreloads ∧
    (createSystemContexts poolAfterFourPreloads .faceted).2 = none := by
  decide

/-- C3 (amended): `switchToSystem` on the already-active system always
takes the fast no-op path, never touching any canvas context; when the
instance is healthy (engine present and active, layers fully shown, all
five contexts live) the call succeeds and the observable state is
exactly unchanged.  (The claimed health re-check with a fresh switch on
an unhealthy instance does not exist: see the counterexample.) -/
theorem claim3_switch_active_noop (st : PoolState) (T : SystemName)
    (hact : st.activeSystem = some T) :
    (∀ x, (getSlot (switchToSystem st T).1 x).canvases = (getSlot st x).canvases) ∧
    ((getSlot st T).engine = some ⟨true⟩ → (getSlot st T).layer = ⟨true, true, true⟩ →
      (∀ i, canvasLive ((getSlot st T).canvases i) = true) →
      switchToSystem st T = (st, some ⟨true⟩)) := by
  constructor
  · intro x
    unfold switchToSystem
    rw [if_pos hact]
    cases heng : (getSlot (showSystemLayers st T) T).engine <;> simp only [heng]
    · exact canvases_showSystemLayers st T x
    · rw [canvases_engineSetActive, canvases_showSystemLayers]
  · intro heng hlay hlive
    unfold switchToSystem
    rw [if_pos hact]
    simp only [showSystemLayers_noop st T hlay, heng]
    rw [engineSetActive_true_noop st T heng hlay]

/-- C3 witness: a healthy active holographic system is returned untouched. -/
theorem claim3_witness :
    poolHealthy.activeSystem = some .holographic ∧
    switchToSystem poolHealthy .holographic = (poolHealthy, some ⟨true⟩) :=
  ⟨rfl, (claim3_switch_active_noop poolHealthy .holographic rfl).2 (by decide)
    (by decide) (by decide)⟩

/-- C3 counterexample: with the active holographic instance unhealthy
(its background context lost), `switchToSystem` does not behave as a
fresh switch: it still takes the no-op path, returns the engine as a
success, and leaves the lost context lost (a fresh switch would have
rebuilt the instance and left all five contexts bound). -/
theorem claim3_unhealthy_not_rebuilt_cex :
    poolUnhealthy.activeSystem = some .holographic ∧
    canvasLive ((getSlot poolUnhealthy .holographic).canvases 0) = false ∧
    (switchToSystem poolUnhealthy .holographic).2 = some ⟨true⟩ ∧
    ((getSlot (switchToSystem poolUnhealthy .holographic).1 .holographic).canvases 0).contextLost
      = true := by
  decide

/-- C4 (confirmed): starting from the pool's initial state
(`activeSystem = null`) and running any sequence of `switchToSystem`
calls, after a call `switchToSystem T` that returns an engine (success),
exactly the five surfaces of `T` are composited: `T`'s layer container is
fully visible and every other system's is not. -/
theorem claim4_composited_exclusive (st0 : PoolState)
    (h0 : st0.activeSystem = none) (pre : List SystemName) (T : SystemName)
    (hok : (switchToSystem (runSwitches st0 pre) T).2 ≠ none) (s : SystemName) :
    (composited (switchToSystem (runSwitches st0 pre) T).1 s = true ↔ s = T) :=
  (switch_post (runSwitches st0 pre) T (runSwitches_inv st0 (Or.inl h0) pre)).2 s

/-- C4 witness: a cold-start switch to the holographic system succeeds
and composites exactly the holographic layers. -/
theorem claim4_witness :
    poolCold.activeSystem = none ∧
    (switchToSystem (runSwitches poolCold []) .holographic).2 ≠ none ∧
    (composited (switchToSystem (runSwitches poolCold []) .holographic).1 .holographic
        = true ↔ SystemName.holographic = .holographic) ∧
    (composited (switchToSystem (runSwitches poolCold []) .holographic).1 .faceted
        = true ↔ SystemName.faceted = .holographic) :=
  ⟨rfl, by decide,
    claim4_composited_exclusive poolCold rfl [] .holographic (by decide) .holographic,
    claim4_composited_exclusive poolCold rfl [] .holographic (by decide) .faceted⟩

/-- C5 (confirmed): a pointer event at exactly (0.5, 0.5) in Distance
mode emits exactly gridDensity = 5, intensity = 1.0, saturation = 1.0,
hue = 320; `DistanceMode` carries no state, so this holds regardless of
any prior events. -/
theorem claim5_distance_center :
    distance_handleMouseMove 0.5 0.5 =
      [("gridDensity", (5 : ℝ)), ("intensity", 1), ("saturation", 1), ("hue", 320)] := by
  norm_num [distance_handleMouseMove, Real.sqrt_zero, min_def, jsRound, round_eq,
    jsRem, jsTrunc, toFixed2]

/-- C6 (amended): in Rotations mode the emitted updates are
`rot4dXW = (x−0.5)·12.56`, `rot4dYW = (x−0.5)·8.792`,
`rot4dZW = (y−0.5)·12.56` (each rounded to two decimals on emission) and
`hue = round(baseline + (x−0.5)·30)` with baseline 200 — the code's
`rotationRange` is the literal `6.28 * 2 = 12.56`, not `4π`, and
`12.56 * 0.7 = 8.792`, not `2.8π` (see the counterexample). -/
theorem claim6_rotation_formulas (m : RotationModeS) (x y : ℝ)
    (hhue : m.scrollHue = 200) (hx0 : 0 ≤ x) (hx1 : x ≤ 1) :
    rotation_handleMouseMove m x y =
      (m, [("rot4dXW", toFixed2 ((x - 0.5) * 12.56)),
           ("rot4dYW", toFixed2 ((x - 0.5) * 8.792)),
           ("rot4dZW", toFixed2 ((y - 0.5) * 12.56)),
           ("hue", jsRound (200 + (x - 0.5) * 30))]) := by
  have hrem : jsRem (m.scrollHue + (x - 0.5) * 30) 360 = 200 + (x - 0.5) * 30 := by
    rw [hhue]
    apply jsRem_of_nonneg_of_lt <;> nlinarith
  simp only [rotation_handleMouseMove, hrem]
  ring_nf

/-- C6 witness: the formulas evaluated at the right edge of the surface. -/
theorem claim6_witness :
    (0 : ℝ) ≤ 1 ∧
    rotation_handleMouseMove ⟨(0.5, 0.5), 200⟩ 1 0 =
      (⟨(0.5, 0.5), 200⟩,
       [("rot4dXW", toFixed2 ((1 - 0.5) * 12.56)),
        ("rot4dYW", toFixed2 ((1 - 0.5) * 8.792)),
        ("rot4dZW", toFixed2 ((0 - 0.5) * 12.56)),
        ("hue", jsRound (200 + (1 - 0.5) * 30))]) :=
  ⟨by norm_num,
    claim6_rotation_formulas ⟨(0.5, 0.5), 200⟩ 1 0 rfl (by norm_num) (by norm_num)⟩

/-- C6 counterexample: at x = 0.9 the emitted `rot4dXW` value is 5.02,
which is not `(x−0.5)·4π` (that would exceed 5.026): the source
multiplies by `6.28 * 2`, a literal that differs from `4π`. -/
theorem claim6_not_four_pi_cex :
    ((rotation_handleMouseMove {} 0.9 0.5).2.head?) = some ("rot4dXW", 5.02) ∧
      (5.02 : ℝ) ≠ (0.9 - 0.5) * (4 * Real.pi) := by
  constructor
  · norm_num [rotation_handleMouseMove, toFixed2, jsRound, round_eq]
  · have hpi := Real.pi_gt_d6
    intro h
    nlinarith

/-- C7 (amended): a wheel event with `deltaY = 0` is not a no-op — the
direction computation `deltaY > 0 ? 1 : -1` classifies it as a negative
step, so in each wheel mode it behaves exactly like a negative-delta
event, moving the accumulator and emitting updates. -/
theorem claim7_wheel_zero_acts_negative (c : CycleModeS) (w : WaveModeS)
    (s : SweepModeS) (a : ℝ) :
    cycle_handleWheel c 0 = cycle_handleWheel c (-1) ∧
    wave_handleWheel w 0 = wave_handleWheel w (-1) ∧
    sweep_handleWheel s 0 a = sweep_handleWheel s (-1) a := by
  refine ⟨?_, ?_, ?_⟩ <;>
    simp only [cycle_handleWheel, wave_handleWheel, sweep_handleWheel] <;> norm_num

/-- C7 counterexample: in Cycle mode at its initial state, a zero-delta
wheel event changes the density accumulator from 15 to 14.2 and emits
parameter updates, so it is not a no-op. -/
theorem claim7_wheel_zero_cex :
    (cycle_handleWheel {} 0).1.scrollDensity = 14.2 ∧
    (cycle_handleWheel {} 0).2 ≠ [] := by
  constructor
  · norm_num [cycle_handleWheel, max_def, min_def]
  · simp [cycle_handleWheel]

/-- C8 (confirmed): custom parameter overrides are sticky across variant
changes within one engine instance.  For every variant-parameter
generator, after `set_variant(v)`, `update_param(f, w)`,
`set_variant(v2)`, every visualizer's `variantParams` holds `w` at `f`;
every field without an override is freshly regenerated for the new
variant; and the role-local parameters are regenerated from the
visualizer's role. -/
theorem claim8_override_sticky (gen : ℤ → String → ℚ)
    (genRole : String → String → ℚ) (sys0 : HoloSystem) (v v2 : ℤ)
    (f : String) (w : ℚ) :
    ((overrideScenario gen genRole sys0 v v2 f w).visualizers.map
        fun viz => viz.variantParams f) =
      (overrideScenario gen genRole sys0 v v2 f w).visualizers.map (fun _ => w) ∧
    (∀ g, g ≠ f → sys0.customParams g = none →
      ((overrideScenario gen genRole sys0 v v2 f w).visualizers.map
          fun viz => viz.variantParams g) =
        (overrideScenario gen genRole sys0 v v2 f w).visualizers.map
          (fun _ => gen (wrapVariant sys0.totalVariants v2) g)) ∧
    ((overrideScenario gen genRole sys0 v v2 f w).visualizers.map
        fun viz => viz.roleParams) =
      (overrideScenario gen genRole sys0 v v2 f w).visualizers.map
        (fun viz => genRole viz.role) := by
  refine ⟨?_, ?_, ?_⟩
  · simp only [overrideScenario, HoloSystem.updateVariant, HoloSystem.updateParameter,
      HoloVisualizer.updateParameters, List.map_map]
    congr 1
    funext viz
    simp
  · intro g hg h0
    simp only [overrideScenario, HoloSystem.updateVariant, HoloSystem.updateParameter,
      HoloVisualizer.updateParameters, List.map_map]
    congr 1
    funext viz
    simp [hg, h0]
  · simp only [overrideScenario, HoloSystem.updateVariant, HoloSystem.updateParameter,
      HoloVisualizer.updateParameters, List.map_map]
    congr 1

/-- C8 witness: the spec's own scenario — `set_variant(5)`,
`update_param(gridDensity, 42)`, `set_variant(6)` — leaves
`gridDensity = 42` on the visualizer while `hue` is regenerated for
variant 6. -/
theorem claim8_witness :
    ("hue" ≠ "gridDensity") ∧ sysW.customParams "hue" = none ∧
    ((overrideScenario gen7 role1 sysW 5 6 "gridDensity" 42).visualizers.map
        fun viz => viz.variantParams "gridDensity") =
      (overrideScenario gen7 role1 sysW 5 6 "gridDensity" 42).visualizers.map
        (fun _ => (42 : ℚ)) ∧
    ((overrideScenario gen7 role1 sysW 5 6 "gridDensity" 42).visualizers.map
        fun viz => viz.variantParams "hue") =
      (overrideScenario gen7 role1 sysW 5 6 "gridDensity" 42).visualizers.map
        (fun _ => gen7 (wrapVariant sysW.totalVariants 6) "hue") :=
  ⟨by decide, rfl,
    (claim8_override_sticky gen7 role1 sysW 5 6 "gridDensity" 42).1,
    (claim8_override_sticky gen7 role1 sysW 5 6 "gridDensity" 42).2.1 "hue"
      (by decide) rfl⟩

/-- C9 (amended): selecting an unknown mode name on any channel is
silently ignored — the setter leaves the previously selected mode in
place (it does not fall back to "off"), and if a channel's current mode
name is ever absent from the mode table the dispatcher produces no
updates; the embedded router is a total function, so no input or
selection throws. -/
theorem claim9_invalid_mode_ignored (r : ReactivityManager) (m : String) :
    (m ∉ mouseModeNames → setMouseMode r m = r) ∧
    (m ∉ clickModeNames → setClickMode r m = r) ∧
    (m ∉ scrollModeNames → setScrollMode r m = r) ∧
    (r.currentMouseMode ∉ mouseModeNames → ∀ x y, routeMouseMove r x y = (r, [])) ∧
    (r.currentClickMode ∉ clickModeNames → ∀ x y, routeClick r x y = (r, [])) ∧
    (r.currentScrollMode ∉ scrollModeNames → ∀ d a, routeWheel r d a = (r, [])) := by
  refine ⟨fun h => by simp [setMouseMode, h], fun h => by simp [setClickMode, h],
    fun h => by simp [setScrollMode, h], fun h x y => ?_, fun h x y => ?_,
    fun h d a => ?_⟩
  · simp only [mouseModeNames, List.mem_cons, List.mem_singleton, not_or] at h
    simp [routeMouseMove, h.1, h.2.1, h.2.2.1]
  · simp only [clickModeNames, List.mem_cons, List.mem_singleton, not_or] at h
    simp [routeClick, h.1, h.2.1, h.2.2.1]
  · simp only [scrollModeNames, List.mem_cons, List.mem_singleton, not_or] at h
    simp [routeWheel, h.1, h.2.1, h.2.2.1]

/-- C9 witness: selecting the unknown pointer mode "invalid" leaves the
router unchanged. -/
theorem claim9_witness :
    ("invalid" ∉ mouseModeNames) ∧
    setMouseMode {} "invalid" = ({} : ReactivityManager) :=
  ⟨by decide, (claim9_invalid_mode_ignored {} "invalid").1 (by decide)⟩

/-- C9 counterexample: after `setMouseMode("invalid")` the pointer
channel is not "off" — the previously selected Rotations mode still
handles the next pointer event and emits parameter updates. -/
theorem claim9_not_off_cex :
    (handleGlobalMouseMove (setMouseMode {} "invalid") ⟨true, 0.5, 0.5⟩).2 ≠ [] := by
  simp [handleGlobalMouseMove, setMouseMode, mouseModeNames, routeMouseMove,
    rotation_handleMouseMove]

/-- C10 (confirmed): when the master enable flag is false, or the
per-channel toggle for an event's channel is false, the router's global
handlers drop the event before any mode handler runs: the router state
is unchanged and no parameter update is emitted. -/
theorem claim10_disabled_drops_events (r : ReactivityManager)
    (em ec : MouseEventE) (et ete : TouchEventE) (ew : WheelEventE) (a : ℝ) :
    (r.enabled = false →
      handleGlobalMouseMove r em = (r, []) ∧ handleGlobalTouchMove r et = (r, []) ∧
      handleGlobalClick r ec = (r, []) ∧ handleGlobalTouchEnd r ete = (r, []) ∧
      handleGlobalWheel r ew a = (r, [])) ∧
    (r.mouseEnabled = false →
      handleGlobalMouseMove r em = (r, []) ∧ handleGlobalTouchMove r et = (r, [])) ∧
    (r.clickEnabled = false →
      handleGlobalClick r ec = (r, []) ∧ handleGlobalTouchEnd r ete = (r, [])) ∧
    (r.scrollEnabled = false → handleGlobalWheel r ew a = (r, [])) := by
  refine ⟨fun h => ?_, fun h => ?_, fun h => ?_, fun h => ?_⟩
  · exact ⟨by simp [handleGlobalMouseMove, h], by simp [handleGlobalTouchMove, h],
      by simp [handleGlobalClick, h], by simp [handleGlobalTouchEnd, h],
      by simp [handleGlobalWheel, h]⟩
  · exact ⟨by simp [handleGlobalMouseMove, h], by simp [handleGlobalTouchMove, h]⟩
  · exact ⟨by simp [handleGlobalClick, h], by simp [handleGlobalTouchEnd, h]⟩
  · simp [handleGlobalWheel, h]

/-- C10 witness: with the master toggle off, a canvas pointer event is
dropped. -/
theorem claim10_witness :
    ({ enabled := false } : ReactivityManager).enabled = false ∧
    handleGlobalMouseMove { enabled := false } ⟨true, 0.3, 0.7⟩ =
      ({ enabled := false }, []) :=
  ⟨rfl, ((claim10_disabled_drops_events { enabled := false } ⟨true, 0.3, 0.7⟩
    ⟨true, 0.3, 0.7⟩ ⟨true, true, 0.3, 0.7⟩ ⟨true, true, 0.3, 0.7⟩ ⟨true, 1⟩ 0).1
      rfl).1⟩

/-- C2 witness: acquiring the holographic set with a zero-width
background surface creates no context for it and reports nothing. -/
theorem claim2_witness :
    ((getSlot poolZeroWidth .holographic).canvases 0).present = true ∧
    ((getSlot poolZeroWidth .holographic).canvases 0).rectW ≤ 0 ∧
    (createSystemContexts poolZeroWidth .holographic).2 = none ∧
    ((getSlot (createSystemContexts poolZeroWidth .holographic).1 .holographic).canvases
      0).hasContext = false :=
  ⟨by decide, by decide,
    (claim2_surface_not_ready_skipped poolZeroWidth .holographic 0 (by decide)
      (Or.inr (Or.inl (by decide))) (by decide) (by decide)).1,
    (claim2_surface_not_ready_skipped poolZeroWidth .holographic 0 (by decide)
      (Or.inr (Or.inl (by decide))) (by decide) (by decide)).2.1⟩

/-- C2 counterexample: with the background surface zero-width, the
five-surface acquisition reports no `SurfaceNotReady` to its caller — it
returns no failure at all — and simply continues, creating the shadow
surface's context. -/
theorem claim2_not_reported_cex :
    ((getSlot poolZeroWidth .holographic).canvases 0).rectW = 0 ∧
    (createSystemContexts poolZeroWidth .holographic).2 ≠
      some AcquireFailure.surfaceNotReady ∧
    ((getSlot (createSystemContexts poolZeroWidth .holographic).1 .holographic).canvases
      1).hasContext = true := by
  decide
